import Mathlib

/-!
Verification development for the nym-vpn-client tunnel core.

This file gives a shallow embedding of the parts of the repository that the
checked claims are about, and proves (or refutes) each claim against it:

* the WireGuard gateway authenticator protocol client
  (nym-vpn-core/crates/nym-wg-gateway-client/src/lib.rs): the retrying
  transport wrapper WgGatewayLightClient::send, query_bandwidth, suspended,
  top_up and WgGatewayClient::register_wireguard;
* the tunnel state machine control loop
  (nym-vpn-core/crates/nym-vpn-lib/src/tunnel_state_machine/mod.rs):
  TunnelStateMachine::run, the Error enum and Error::error_state_reason;
* the mixnet connector connect_mixnet
  (nym-vpn-core/crates/nym-vpn-lib/src/tunnel_state_machine/tunnel/mod.rs);
* the disconnected state handler
  (nym-vpn-core/crates/nym-vpn-lib/src/tunnel_state_machine/states/disconnected_state.rs);
* setup_tunnel_services (nym-vpn-core/nym-vpn-lib/src/lib.rs).

Async effects are modelled by explicit oracles: a transport is a stream of
attempt outcomes together with the wall clock observed at every loop check,
and side effects such as disconnecting the mixnet client or shutting the
task manager down are returned as explicit flags alongside the result.
-/

/-! ## Authenticator protocol client (nym-wg-gateway-client/src/lib.rs) -/

/-- The kinds of ClientMessage sent by the wg gateway client
(nym_authenticator_client::ClientMessage): Initial and Final registration
messages, bandwidth Query, and TopUp. Payloads do not influence the retry
behaviour and are kept out of the message tag. -/
inductive ClientMessage
  | initial
  | final
  | query
  | topUp
  deriving DecidableEq, Repr

/-- Modelled from the spec: ClientMessage::is_wasteful lives in the external
nym_authenticator_client crate, which is not part of this repository.
Spec section 4.3 classifies the Initial/Final registration handshake as
wasteful and top-up (and plain queries) as not wasteful. -/
def ClientMessage.is_wasteful : ClientMessage → Bool
  | .initial => true
  | .final => true
  | .query => false
  | .topUp => false

/-- Errors surfaced by the underlying authenticator transport
(nym_authenticator_client::Error). The retry loop distinguishes only the
timeout-waiting-for-connect-response variant; all remaining variants are
collapsed into an opaque code. -/
inductive AuthClientError
  | timeoutWaitingForConnectResponse
  | other (code : Nat)
  deriving DecidableEq, Repr

/-- Reply payload of a PendingRegistration response (RegistrationData).
Only the nonce is inspected by code paths modelled here; the gateway data
blob is opaque (its verification outcome is an environment flag). -/
structure RegistrationData where
  nonce : Nat
  gateway_data : Nat
  deriving DecidableEq, Repr

/-- Reply payload of a Registered response, as consumed by
register_wireguard to build GatewayData. -/
structure RegisteredData where
  pub_key : Nat
  wg_port : Nat
  private_ipv4 : Nat
  private_ipv6 : Nat
  deriving DecidableEq, Repr

/-- The response data variants of AuthenticatorResponse
(nym_authenticator_requests v4) that the client code inspects. The
RemainingBandwidth reply is an optional payload whose only consumed field
is available_bandwidth, kept here as the Int itself. -/
inductive AuthenticatorResponseData
  | pendingRegistration (reply : RegistrationData)
  | registered (reply : RegisteredData)
  | remainingBandwidth (reply : Option Int)
  | topUpBandwidth (available_bandwidth : Int)
  deriving DecidableEq, Repr

/-- Outcome of one auth_client.send call on the transport. -/
inductive AuthOutcome
  | ok (resp : AuthenticatorResponseData)
  | err (e : AuthClientError)
  deriving DecidableEq, Repr

/-- Errors of the nym-wg-gateway-client crate used by lib.rs. The crate's
error.rs module is not part of the sources; the variants and the From
conversion that the question-mark operator applies to transport errors
(authClient) are taken from their uses in lib.rs. -/
inductive WgError
  | authClient (source : AuthClientError)
  | noRetry (source : AuthClientError)
  | invalidGatewayAuthResponse
  | verificationFailed
  | getTicket
  deriving DecidableEq, Repr

/-- RETRY_PERIOD: Duration::from_secs(30), the wall-clock retry budget of
WgGatewayLightClient::send, measured here in whole seconds. -/
def RETRY_PERIOD : Nat := 30

/-- A transport oracle for one WgGatewayLightClient::send call: out i is the
outcome of the i-th auth_client.send attempt, and check i is the elapsed
wall-clock time (seconds since Instant::now at entry) observed at the i-th
while-loop check. Each attempt takes real time, so the clock strictly
advances between consecutive checks; this is what makes the retry loop
terminate. -/
structure Transport where
  out : Nat → AuthOutcome
  check : Nat → Nat
  mono : ∀ i, check i < check (i + 1)

/-- The wasteful-message retry loop of WgGatewayLightClient::send, started
at attempt index i: while the elapsed time at the check is under
RETRY_PERIOD, send; a response ends the loop, the transient
TimeoutWaitingForConnectResponse error continues it, and any other error
returns Error::NoRetry immediately; an exhausted budget returns
Error::NoRetry wrapping the timeout error. -/
def sendFrom (t : Transport) (i : Nat) : Except WgError AuthenticatorResponseData :=
  if _h : t.check i < RETRY_PERIOD then
    match t.out i with
    | .ok resp => .ok resp
    | .err .timeoutWaitingForConnectResponse => sendFrom t (i + 1)
    | .err e => .error (.noRetry e)
  else
    .error (.noRetry .timeoutWaitingForConnectResponse)
termination_by RETRY_PERIOD - t.check i
decreasing_by
  have hm := t.mono i
  omega

/-- Number of transport attempts actually made by the retry loop of
WgGatewayLightClient::send when started at index i. -/
def sendAttemptsFrom (t : Transport) (i : Nat) : Nat :=
  if _h : t.check i < RETRY_PERIOD then
    match t.out i with
    | .ok _ => 1
    | .err .timeoutWaitingForConnectResponse => 1 + sendAttemptsFrom t (i + 1)
    | .err _ => 1
  else
    0
termination_by RETRY_PERIOD - t.check i
decreasing_by
  have hm := t.mono i
  omega

/-- WgGatewayLightClient::send: wasteful messages go through the bounded
retry loop; non-wasteful messages are sent exactly once and their transport
error is propagated directly by the question-mark conversion. -/
def WgGatewayLightClient.send (msg : ClientMessage) (t : Transport) :
    Except WgError AuthenticatorResponseData :=
  if msg.is_wasteful then
    sendFrom t 0
  else
    match t.out 0 with
    | .ok resp => .ok resp
    | .err e => .error (.authClient e)

/-- Number of transport attempts made by one WgGatewayLightClient::send
call. -/
def sendAttempts (msg : ClientMessage) (t : Transport) : Nat :=
  if msg.is_wasteful then sendAttemptsFrom t 0 else 1

/-- WgGatewayLightClient::query_bandwidth, as a function of the outcome of
the single (unretried) auth_client.send of the Query message: a
RemainingBandwidth reply with a payload yields its available_bandwidth, a
RemainingBandwidth reply without payload yields Some 0, any other response
data is InvalidGatewayAuthResponse, and a transport error propagates.
Logging of low-bandwidth warnings has no effect on the result. -/
def WgGatewayLightClient.query_bandwidth (o : AuthOutcome) :
    Except WgError (Option Int) :=
  match o with
  | .err e => .error (.authClient e)
  | .ok (.remainingBandwidth (some available_bandwidth)) => .ok (some available_bandwidth)
  | .ok (.remainingBandwidth none) => .ok (some 0)
  | .ok _ => .error .invalidGatewayAuthResponse

/-- WgGatewayLightClient::suspended: Ok(query_bandwidth().is_none()). -/
def WgGatewayLightClient.suspended (o : AuthOutcome) : Except WgError Bool :=
  (WgGatewayLightClient.query_bandwidth o).map Option.isNone

/-- WgGatewayLightClient::top_up: build the TopUp message for the prepared
credential and pass it to send, then decode the TopUpBandwidth reply. -/
def WgGatewayLightClient.top_up (t : Transport) : Except WgError Int :=
  match WgGatewayLightClient.send .topUp t with
  | .error e => .error e
  | .ok (.topUpBandwidth available_bandwidth) => .ok available_bandwidth
  | .ok _ => .error .invalidGatewayAuthResponse

/-- Number of TopUp transmissions on the transport caused by one top_up
call. -/
def top_upAttempts (t : Transport) : Nat :=
  sendAttempts .topUp t

/-- GatewayData returned by successful registration
(nym-wg-gateway-client/src/lib.rs). The socket endpoint is the pair of the
gateway host and the registered wg_port; formatting an IpAddr and a u16
port and parsing the result back as a SocketAddr always succeeds, so the
map_err on SocketAddr::from_str never fires and is not modelled as a
failure. -/
structure GatewayData where
  public_key : Nat
  endpoint : Nat × Nat
  private_ipv4 : Nat
  private_ipv6 : Nat
  deriving DecidableEq, Repr

/-- Build the GatewayData record from the Registered reply, as at the end
of register_wireguard. -/
def mkGatewayData (gateway_host : Nat) (reply : RegisteredData) : GatewayData :=
  { public_key := reply.pub_key
    endpoint := (gateway_host, reply.wg_port)
    private_ipv4 := reply.private_ipv4
    private_ipv6 := reply.private_ipv6 }

/-- Environment of one WgGatewayClient::register_wireguard call:
the outcome of the single direct auth_client.send of the Initial message,
the transport stream seen by the light-client send of the Final message,
the result of gateway_data.verify, the enable_credentials_mode flag, and
the outcome of request_bandwidth (a prepared credential, or the GetTicket
error). -/
structure RegisterEnv where
  initOutcome : AuthOutcome
  finalTransport : Transport
  verifyOk : Bool
  enable_credentials_mode : Bool
  credential : Except WgError Nat

/-- WgGatewayClient::register_wireguard. The Initial message is sent by a
single direct auth_client.send call (its transport error converted by the
question-mark operator); on a PendingRegistration reply the gateway data is
verified, a credential is optionally prepared, and the Final message is
sent through WgGatewayLightClient::send (the retrying wrapper); a
Registered reply (from either round) yields the GatewayData. -/
def WgGatewayClient.register_wireguard (gateway_host : Nat) (env : RegisterEnv) :
    Except WgError GatewayData :=
  match env.initOutcome with
  | .err e => .error (.authClient e)
  | .ok (.pendingRegistration _reply) =>
    if env.verifyOk then
      match (if env.enable_credentials_mode then env.credential.map some else .ok none) with
      | .error e => .error e
      | .ok _credential =>
        match WgGatewayLightClient.send .final env.finalTransport with
        | .error e => .error e
        | .ok (.registered reply) => .ok (mkGatewayData gateway_host reply)
        | .ok _ => .error .invalidGatewayAuthResponse
    else
      .error .verificationFailed
  | .ok (.registered reply) => .ok (mkGatewayData gateway_host reply)
  | .ok _ => .error .invalidGatewayAuthResponse

/-- Number of transmissions of the Initial message on the transport during
register_wireguard: the code performs exactly one direct auth_client.send
for it, outside any retry loop. -/
def registerInitialAttempts (_env : RegisterEnv) : Nat := 1

/-! ## Tunnel state machine (tunnel_state_machine/mod.rs) -/

/-- ErrorStateReason (tunnel_state_machine/mod.rs). -/
inductive ErrorStateReason
  | Firewall
  | Routing
  | Dns
  | TunDevice
  | EstablishMixnetConnection
  | TunnelDown
  deriving DecidableEq, Repr

/-- ActionAfterDisconnect (tunnel_state_machine/mod.rs). -/
inductive ActionAfterDisconnect
  | Nothing
  | Reconnect
  | Error (reason : ErrorStateReason)
  deriving DecidableEq, Repr

/-- TunnelState (tunnel_state_machine/mod.rs). -/
inductive TunnelState
  | Disconnected
  | Connecting
  | Connected
  | Disconnecting (after_disconnect : ActionAfterDisconnect)
  | Error (reason : ErrorStateReason)
  deriving DecidableEq, Repr

/-- TunnelEvent (tunnel_state_machine/mod.rs): the only variant is
NewState. -/
inductive TunnelEvent
  | NewState (state : TunnelState)
  deriving DecidableEq, Repr

/-- The tunnel_state_machine Error enum (tunnel_state_machine/mod.rs);
every variant carries an opaque source error. -/
inductive TunnelStateMachine.Error
  | CreateRouteHandler (source : Nat)
  | CreateDnsHandler (source : Nat)
  | CreateFirewallHandler (source : Nat)
  | CreateTunDevice (source : Nat)
  | GetTunDeviceName (source : Nat)
  | SetTunDeviceIpv6Addr (source : Nat)
  | AddRoutes (source : Nat)
  | SetDns (source : Nat)
  | ConnectMixnetClient (source : Nat)
  | ConnectMixnetTunnel (source : Nat)
  deriving DecidableEq, Repr

/-- Error::error_state_reason (tunnel_state_machine/mod.rs). -/
def TunnelStateMachine.Error.error_state_reason :
    TunnelStateMachine.Error → ErrorStateReason
  | .CreateRouteHandler _ | .AddRoutes _ => .Routing
  | .CreateDnsHandler _ | .SetDns _ => .Dns
  | .CreateFirewallHandler _ => .Firewall
  | .CreateTunDevice _ | .GetTunDeviceName _ | .SetTunDeviceIpv6Addr _ => .TunDevice
  | .ConnectMixnetTunnel _ | .ConnectMixnetClient _ => .EstablishMixnetConnection

/-- One handle_event outcome of the current state handler, as consumed by
TunnelStateMachine::run. NewState carries the state to publish (the new
boxed handler itself only determines later outcomes, which are already
quantified over by taking an arbitrary outcome trace); SameState carries
nothing observable. A terminating execution of the loop is a finite trace
of these outcomes followed by Finished. -/
inductive HandlerDecision
  | newState (state : TunnelState)
  | sameState
  deriving DecidableEq, Repr

/-- Observable effects of TunnelStateMachine::run: an attempted
event_sender.send of a TunnelEvent (with the delivery result that the loop
ignores), and RouteHandler::stop. -/
inductive RunEffect
  | emit (event : TunnelEvent) (delivered : Bool)
  | routeHandlerStop
  deriving DecidableEq, Repr

/-- TunnelStateMachine::run over a terminating trace of handler outcomes:
a NewState outcome sends exactly one TunnelEvent::NewState on the
unbounded event channel (the send result is ignored: let _ = ...), a
SameState outcome sends nothing, and when the handler returns Finished the
loop breaks and route_handler.stop() runs as the last step. sendOk models
whether the receiving side still exists for a given event; sending on an
unbounded channel never blocks. -/
def TunnelStateMachine.run (sendOk : TunnelEvent → Bool) :
    List HandlerDecision → List RunEffect
  | [] => [RunEffect.routeHandlerStop]
  | .newState state :: rest =>
    RunEffect.emit (TunnelEvent.NewState state) (sendOk (TunnelEvent.NewState state))
      :: TunnelStateMachine.run sendOk rest
  | .sameState :: rest => TunnelStateMachine.run sendOk rest

/-- The events a run attempts to emit, in order. -/
def runEvents (sendOk : TunnelEvent → Bool) (trace : List HandlerDecision) :
    List TunnelEvent :=
  (TunnelStateMachine.run sendOk trace).filterMap fun eff =>
    match eff with
    | .emit event _ => some event
    | .routeHandlerStop => none

/-- The shape of a run effect with the (ignored) delivery result erased;
used to state that the control flow of the loop does not depend on the
event receiver. -/
def RunEffect.shape : RunEffect → Option TunnelEvent
  | .emit event _ => some event
  | .routeHandlerStop => none

/-! ## Mixnet connector (tunnel_state_machine/tunnel/mod.rs) -/

/-- MIXNET_CLIENT_STARTUP_TIMEOUT: Duration::from_secs(30), in seconds. -/
def MIXNET_CLIENT_STARTUP_TIMEOUT : Nat := 30

/-- The tunnel module Error enum (tunnel_state_machine/tunnel/mod.rs),
restricted to the variants reachable from connect_mixnet; sources are
opaque. -/
inductive Tunnel.Error
  | CreateGatewayClient (source : Nat)
  | SelectGateways (source : Nat)
  | StartMixnetClientTimeout
  | MixnetClient (source : Nat)
  | Cancelled
  deriving DecidableEq, Repr

/-- ConnectedMixnet as far as connect_mixnet observably constructs it: it
wraps the started mixnet client (plus the task manager and configuration
handles, opaque here). -/
structure ConnectedMixnet where
  mixnet_client : Nat
  deriving DecidableEq, Repr

/-- Environment of one connect_mixnet call. gatewayClient is the result of
GatewayClient::new, which runs before the task manager is created. startup
mirrors cancel_token.run_until_cancelled(tokio::time::timeout(30s, setup_mixnet_client(...))):
none means the cancellation token fired first, some none means the 30
second timeout elapsed, some (some r) is the mixnet client setup result. -/
structure ConnectMixnetEnv where
  gatewayClient : Except Nat Unit
  startup : Option (Option (Except Nat Nat))
  deriving Repr

/-- connect_mixnet (tunnel_state_machine/tunnel/mod.rs), returning the
result together with a flag recording whether shutdown_task_manager (signal
shutdown, then wait for it to complete) was run on the already-created task
manager before returning. A failing GatewayClient::new returns before the
task manager exists, so the flag is false there; every error after the
task manager is created shuts it down first; on success the task manager
is moved into the returned ConnectedMixnet. -/
def connect_mixnet (env : ConnectMixnetEnv) :
    Except Tunnel.Error ConnectedMixnet × Bool :=
  match env.gatewayClient with
  | .error e => (.error (.CreateGatewayClient e), false)
  | .ok _ =>
    let res : Except Tunnel.Error Nat :=
      match env.startup with
      | none => .error .Cancelled
      | some none => .error .StartMixnetClientTimeout
      | some (some (.error e)) => .error (.MixnetClient e)
      | some (some (.ok client)) => .ok client
    match res with
    | .ok client => (.ok { mixnet_client := client }, false)
    | .error e => (.error e, true)

/-! ## Disconnected state handler (states/disconnected_state.rs) -/

/-- TunnelCommand as matched by DisconnectedState::handle_event:
Connect, Disconnect and SetTunnelSettings. The settings payload is
opaque. -/
inductive TunnelCommand
  | Connect
  | Disconnect
  | SetTunnelSettings (tunnel_settings : Nat)
  deriving DecidableEq, Repr

/-- Modelled from the spec: the SharedState record for the snapshot of the
state machine that disconnected_state.rs belongs to is not among the
sources; spec section 3 gives its fields as the route handler, the
firewall handler, the DNS handler and the tunnel settings. Handler values
are opaque. -/
structure SharedState where
  route_handler : Nat
  firewall_handler : Nat
  dns_handler : Nat
  tunnel_settings : Nat
  deriving DecidableEq, Repr

/-- The branch taken by the select! in DisconnectedState::handle_event:
the shutdown token fired, a command arrived, or the command channel is
closed (the else branch). -/
inductive HandlerInput
  | shutdown
  | command (cmd : TunnelCommand)
  | channelClosed
  deriving DecidableEq, Repr

/-- The NextTunnelState value produced by DisconnectedState::handle_event;
entering the connecting state boxes the next handler, whose construction
(ConnectingState::enter) lives outside the modelled sources and is passed
in as connectingEnter. -/
inductive DisconnectedNext
  | newStateConnecting
  | sameState
  | finished
  deriving DecidableEq, Repr

/-- DisconnectedState::handle_event: shutdown and a closed command channel
finish the loop; Connect enters the connecting state (via the external
ConnectingState::enter, which receives the shared state); Disconnect stays
in the same state; SetTunnelSettings overwrites the tunnel_settings field
of the shared state and stays in the same state. -/
def DisconnectedState.handle_event (connectingEnter : SharedState → SharedState)
    (input : HandlerInput) (shared_state : SharedState) :
    DisconnectedNext × SharedState :=
  match input with
  | .shutdown => (.finished, shared_state)
  | .channelClosed => (.finished, shared_state)
  | .command .Connect => (.newStateConnecting, connectingEnter shared_state)
  | .command .Disconnect => (.sameState, shared_state)
  | .command (.SetTunnelSettings tunnel_settings) =>
    (.sameState, { shared_state with tunnel_settings := tunnel_settings })

/-! ## setup_tunnel_services (nym-vpn-core/nym-vpn-lib/src/lib.rs) -/

/-- Environment of one setup_tunnel_services call, after the mixnet client
is up: the outcome of nym_connection_monitor::self_ping_and_wait and the
outcome of setup_post_mixnet (both with opaque payloads). -/
structure SetupTunnelServicesEnv where
  self_ping : Except Nat Unit
  post_mixnet : Except Nat Nat
  deriving Repr

/-- setup_tunnel_services, returning the result together with a flag
recording whether mixnet_client.disconnect() was called before returning.
The self-ping result is propagated with the question-mark operator, so a
self-ping failure returns without disconnecting; a setup_post_mixnet
failure is matched explicitly and disconnects the mixnet client before
propagating the error. The connection info values are opaque. -/
def setup_tunnel_services (env : SetupTunnelServicesEnv) :
    Except Nat (Nat × Nat) × Bool :=
  match env.self_ping with
  | .error e => (.error e, false)
  | .ok _ =>
    match env.post_mixnet with
    | .error e => (.error e, true)
    | .ok exit_connection_info => (.ok (0, exit_connection_info), false)

/-! ## Concrete model instances used by witnesses and counterexamples -/

/-- A transport on which every attempt fails with the transient
timeout-waiting-for-connect-response error and the clock advances one
second per loop check; it exercises the full retry budget. -/
def tAllTimeouts : Transport where
  out := fun _ => .err .timeoutWaitingForConnectResponse
  check := fun i => i
  mono := fun i => Nat.lt_succ_self i

/-- A register_wireguard environment whose Initial send times out on the
transport. -/
def registerTimeoutEnv : RegisterEnv where
  initOutcome := .err .timeoutWaitingForConnectResponse
  finalTransport := tAllTimeouts
  verifyOk := true
  enable_credentials_mode := false
  credential := .ok 0

/-- A register_wireguard environment that receives a PendingRegistration
reply, verifies it, runs without credentials mode, and then sees every
Final send time out. -/
def registerPendingEnv : RegisterEnv where
  initOutcome := .ok (.pendingRegistration { nonce := 1, gateway_data := 2 })
  finalTransport := tAllTimeouts
  verifyOk := true
  enable_credentials_mode := false
  credential := .ok 0

/-- A connect_mixnet environment in which the cancellation token fires
during mixnet client startup. -/
def connectCancelledEnv : ConnectMixnetEnv where
  gatewayClient := .ok ()
  startup := none

/-- The effects a run of the control loop produces before the final
RouteHandler stop: one attempted event send per NewState outcome, in
trace order. -/
def emittedRun (sendOk : TunnelEvent → Bool) (trace : List HandlerDecision) :
    List RunEffect :=
  trace.filterMap fun d =>
    match d with
    | .newState state =>
      some (RunEffect.emit (TunnelEvent.NewState state) (sendOk (TunnelEvent.NewState state)))
    | .sameState => none

/-! ## Helper lemmas about the retry loop -/

/-- Unfolding the retry loop when the budget is already exhausted at the
check: no attempt is made and the distinct NoRetry timeout error is
returned. -/
theorem sendFrom_budget_exhausted (t : Transport) (i : Nat)
    (h : ¬ t.check i < RETRY_PERIOD) :
    sendFrom t i = .error (.noRetry .timeoutWaitingForConnectResponse) := by
  rw [sendFrom]
  simp [h]

/-- Unfolding the retry loop on a successful attempt within the budget. -/
theorem sendFrom_ok (t : Transport) (i : Nat) (resp : AuthenticatorResponseData)
    (h : t.check i < RETRY_PERIOD) (ho : t.out i = .ok resp) :
    sendFrom t i = .ok resp := by
  rw [sendFrom]
  simp [h, ho]

/-- Unfolding the retry loop on a transient timeout within the budget: the
loop continues with the next attempt. -/
theorem sendFrom_timeout_step (t : Transport) (i : Nat)
    (h : t.check i < RETRY_PERIOD)
    (ho : t.out i = .err .timeoutWaitingForConnectResponse) :
    sendFrom t i = sendFrom t (i + 1) := by
  rw [sendFrom]
  simp [h, ho]

/-- Unfolding the retry loop on any non-timeout transport error within the
budget: the loop aborts immediately with NoRetry wrapping that error. -/
theorem sendFrom_other_error (t : Transport) (i : Nat) (c : Nat)
    (h : t.check i < RETRY_PERIOD) (ho : t.out i = .err (.other c)) :
    sendFrom t i = .error (.noRetry (.other c)) := by
  rw [sendFrom]
  simp [h, ho]

/-- Attempt counting mirrors the loop: exhausted budget means zero
attempts. -/
theorem sendAttemptsFrom_budget_exhausted (t : Transport) (i : Nat)
    (h : ¬ t.check i < RETRY_PERIOD) :
    sendAttemptsFrom t i = 0 := by
  rw [sendAttemptsFrom]
  simp [h]

/-- Attempt counting on a non-timeout error within the budget: exactly the
one aborting attempt. -/
theorem sendAttemptsFrom_other_error (t : Transport) (i : Nat) (c : Nat)
    (h : t.check i < RETRY_PERIOD) (ho : t.out i = .err (.other c)) :
    sendAttemptsFrom t i = 1 := by
  rw [sendAttemptsFrom]
  simp [h, ho]

/-- If every attempt on the transport times out, the retry loop terminates
once the clock passes the budget and returns the distinct NoRetry timeout
error, from any starting index. -/
theorem sendFrom_all_timeouts (t : Transport)
    (h : ∀ j, t.out j = .err .timeoutWaitingForConnectResponse) (i : Nat) :
    sendFrom t i = .error (.noRetry .timeoutWaitingForConnectResponse) := by
  have key : ∀ n j, RETRY_PERIOD - t.check j ≤ n →
      sendFrom t j = .error (.noRetry .timeoutWaitingForConnectResponse) := by
    intro n
    induction n with
    | zero =>
      intro j hj
      exact sendFrom_budget_exhausted t j (by omega)
    | succ n ih =>
      intro j hj
      by_cases hc : t.check j < RETRY_PERIOD
      · rw [sendFrom_timeout_step t j hc (h j)]
        refine ih (j + 1) ?_
        have hm := t.mono j
        omega
      · exact sendFrom_budget_exhausted t j hc
  exact key (RETRY_PERIOD - t.check i) i le_rfl

/-! ## Claims -/

/-- Claim C1: for every message passed to WgGatewayLightClient::send, a
wasteful message is retried only on the transient
timeout-waiting-for-connect-response error within the 30-second wall-clock
budget (RETRY_PERIOD = 30 s); any other transport error aborts immediately
after a single attempt, wrapped as the NoRetry error; once the budget is
exhausted the call fails with the distinct NoRetry timeout error, not the
plainly-propagated transport timeout; a non-wasteful message is sent
exactly once and its outcome (response or directly-propagated error) is
returned as is. -/
theorem claim_C1_send_retry_policy (msg : ClientMessage) (t : Transport) :
    RETRY_PERIOD = 30
    ∧ (msg.is_wasteful = true →
        ((∀ c, t.check 0 < RETRY_PERIOD → t.out 0 = .err (.other c) →
            WgGatewayLightClient.send msg t = .error (.noRetry (.other c))
            ∧ sendAttempts msg t = 1)
         ∧ ((∀ j, t.out j = .err .timeoutWaitingForConnectResponse) →
              WgGatewayLightClient.send msg t
                = .error (.noRetry .timeoutWaitingForConnectResponse)
              ∧ WgGatewayLightClient.send msg t
                ≠ .error (.authClient .timeoutWaitingForConnectResponse))
         ∧ (¬ t.check 0 < RETRY_PERIOD →
              WgGatewayLightClient.send msg t
                = .error (.noRetry .timeoutWaitingForConnectResponse)
              ∧ sendAttempts msg t = 0)
         ∧ (∀ resp, t.check 0 < RETRY_PERIOD → t.out 0 = .ok resp →
              WgGatewayLightClient.send msg t = .ok resp)))
    ∧ (msg.is_wasteful = false →
        sendAttempts msg t = 1
        ∧ (∀ e, t.out 0 = .err e →
            WgGatewayLightClient.send msg t = .error (.authClient e))
        ∧ (∀ resp, t.out 0 = .ok resp →
            WgGatewayLightClient.send msg t = .ok resp)) := by
  refine ⟨rfl, fun hw => ⟨?_, ?_, ?_, ?_⟩, fun hnw => ⟨?_, ?_, ?_⟩⟩
  · intro c hc ho
    constructor
    · simp only [WgGatewayLightClient.send, hw, if_true]
      exact sendFrom_other_error t 0 c hc ho
    · simp only [sendAttempts, hw, if_true]
      exact sendAttemptsFrom_other_error t 0 c hc ho
  · intro hall
    constructor
    · simp only [WgGatewayLightClient.send, hw, if_true]
      exact sendFrom_all_timeouts t hall 0
    · simp only [WgGatewayLightClient.send, hw, if_true]
      rw [sendFrom_all_timeouts t hall 0]
      simp
  · intro hc
    constructor
    · simp only [WgGatewayLightClient.send, hw, if_true]
      exact sendFrom_budget_exhausted t 0 hc
    · simp only [sendAttempts, hw, if_true]
      exact sendAttemptsFrom_budget_exhausted t 0 hc
  · intro resp hc ho
    simp only [WgGatewayLightClient.send, hw, if_true]
    exact sendFrom_ok t 0 resp hc ho
  · simp [sendAttempts, hnw]
  · intro e ho
    simp [WgGatewayLightClient.send, hnw, ho]
  · intro resp ho
    simp [WgGatewayLightClient.send, hnw, ho]

/-- Witness for claim C1: on the all-timeouts transport, the wasteful
Initial message exhausts the budget and fails with the distinct NoRetry
timeout, while the non-wasteful Query message propagates the transport
timeout directly after its single attempt. -/
theorem claim_C1_send_retry_policy_witness :
    WgGatewayLightClient.send ClientMessage.initial tAllTimeouts
      = .error (.noRetry .timeoutWaitingForConnectResponse)
    ∧ WgGatewayLightClient.send ClientMessage.query tAllTimeouts
      = .error (.authClient .timeoutWaitingForConnectResponse)
    ∧ sendAttempts ClientMessage.query tAllTimeouts = 1 := by
  have h1 := (claim_C1_send_retry_policy ClientMessage.initial tAllTimeouts).2.1 rfl
  have h2 := (claim_C1_send_retry_policy ClientMessage.query tAllTimeouts).2.2 rfl
  exact ⟨(h1.2.1 fun j => rfl).1,
    h2.2.1 AuthClientError.timeoutWaitingForConnectResponse rfl, h2.1⟩

/-- Claim C2: every successful WgGatewayLightClient::query_bandwidth call
returns Some: the available bandwidth when the RemainingBandwidth reply
carries a payload, and Some 0 when it carries none (no error, no None);
consequently suspended(), defined as query_bandwidth().is_none(), is false
on every successful query. -/
theorem claim_C2_query_bandwidth_never_none :
    (∀ o v, WgGatewayLightClient.query_bandwidth o = .ok v → v.isSome = true)
    ∧ WgGatewayLightClient.query_bandwidth
        (.ok (.remainingBandwidth none)) = .ok (some 0)
    ∧ (∀ available_bandwidth,
        WgGatewayLightClient.query_bandwidth
          (.ok (.remainingBandwidth (some available_bandwidth)))
          = .ok (some available_bandwidth))
    ∧ (∀ o b, WgGatewayLightClient.suspended o = .ok b → b = false) := by
  refine ⟨?_, rfl, fun _ => rfl, ?_⟩
  · intro o v h
    match o with
    | .err e => simp [WgGatewayLightClient.query_bandwidth] at h
    | .ok (.remainingBandwidth (some a)) =>
      simp [WgGatewayLightClient.query_bandwidth] at h
      simp [← h]
    | .ok (.remainingBandwidth none) =>
      simp [WgGatewayLightClient.query_bandwidth] at h
      simp [← h]
    | .ok (.pendingRegistration r) =>
      simp [WgGatewayLightClient.query_bandwidth] at h
    | .ok (.registered r) =>
      simp [WgGatewayLightClient.query_bandwidth] at h
    | .ok (.topUpBandwidth a) =>
      simp [WgGatewayLightClient.query_bandwidth] at h
  · intro o b h
    match o with
    | .err e => exact Except.noConfusion h
    | .ok (.remainingBandwidth (some a)) =>
      injection h with h1
      exact h1.symm
    | .ok (.remainingBandwidth none) =>
      injection h with h1
      exact h1.symm
    | .ok (.pendingRegistration r) => exact Except.noConfusion h
    | .ok (.registered r) => exact Except.noConfusion h
    | .ok (.topUpBandwidth a) => exact Except.noConfusion h

/-- Witness for claim C2: the empty-payload RemainingBandwidth reply is a
successful query yielding Some 0, which is Some (and so not the suspended
case). -/
theorem claim_C2_query_bandwidth_never_none_witness :
    WgGatewayLightClient.query_bandwidth
      (.ok (.remainingBandwidth none)) = .ok (some 0)
    ∧ Option.isSome (some (0 : Int)) = true := by
  refine ⟨claim_C2_query_bandwidth_never_none.2.1, ?_⟩
  exact claim_C2_query_bandwidth_never_none.1
    (.ok (.remainingBandwidth none)) (some 0)
    claim_C2_query_bandwidth_never_none.2.1

/-- Counterexample to claim C3: register_wireguard sends the Initial
message with a single direct auth_client.send, outside the retrying
wrapper. On a transport whose every attempt times out, a timed-out Initial
send makes register_wireguard fail at once with the directly-propagated
transport timeout (and exactly one Initial transmission), not with the
NoRetry error that the 30-second retry budget would produce. -/
theorem claim_C3_counterexample :
    WgGatewayClient.register_wireguard 0 registerTimeoutEnv
      = .error (.authClient .timeoutWaitingForConnectResponse)
    ∧ WgGatewayClient.register_wireguard 0 registerTimeoutEnv
      ≠ .error (.noRetry .timeoutWaitingForConnectResponse)
    ∧ registerInitialAttempts registerTimeoutEnv = 1 := by
  refine ⟨rfl, ?_, rfl⟩
  intro h
  rw [show WgGatewayClient.register_wireguard 0 registerTimeoutEnv
      = .error (.authClient .timeoutWaitingForConnectResponse) from rfl] at h
  simp at h

/-- Claim C3 as amended: of the two registration handshake messages, only
the Final message is sent through the wasteful-classified retrying send
(retried on the transient timeout up to the 30-second budget, then failing
with the distinct NoRetry error); the Initial message is sent exactly once
directly on the transport, and a transport error on it (a timeout
included) propagates immediately without retry. -/
theorem claim_C3_amended_register_retries (gateway_host : Nat) (env : RegisterEnv) :
    registerInitialAttempts env = 1
    ∧ (∀ e, env.initOutcome = .err e →
        WgGatewayClient.register_wireguard gateway_host env
          = .error (.authClient e))
    ∧ ClientMessage.is_wasteful .final = true
    ∧ (∀ reply, env.initOutcome = .ok (.pendingRegistration reply) →
        env.verifyOk = true →
        env.enable_credentials_mode = false →
        (∀ j, env.finalTransport.out j = .err .timeoutWaitingForConnectResponse) →
        WgGatewayClient.register_wireguard gateway_host env
          = .error (.noRetry .timeoutWaitingForConnectResponse)) := by
  refine ⟨rfl, ?_, rfl, ?_⟩
  · intro e he
    simp [WgGatewayClient.register_wireguard, he]
  · intro reply hinit hverify hcred hall
    simp only [WgGatewayClient.register_wireguard, hinit, hverify, hcred, if_true, if_false]
    have hsend : WgGatewayLightClient.send .final env.finalTransport
        = .error (.noRetry .timeoutWaitingForConnectResponse) := by
      simp only [WgGatewayLightClient.send, ClientMessage.is_wasteful, if_true]
      exact sendFrom_all_timeouts env.finalTransport hall 0
    rw [hsend]
    simp

/-- Witness for the amended claim C3: with a PendingRegistration reply to
the Initial message and an all-timeouts transport for the Final message,
register_wireguard exhausts the retry budget and fails with the distinct
NoRetry timeout error. -/
theorem claim_C3_amended_register_retries_witness :
    WgGatewayClient.register_wireguard 0 registerPendingEnv
      = .error (.noRetry .timeoutWaitingForConnectResponse)
    ∧ registerInitialAttempts registerPendingEnv = 1 := by
  have h := claim_C3_amended_register_retries 0 registerPendingEnv
  exact ⟨h.2.2.2 { nonce := 1, gateway_data := 2 } rfl rfl rfl (fun j => rfl), h.1⟩

/-- Claim C4 concerns setup_tunnel_services: the claim says every failure
after the mixnet client is up, a failed or timed-out self-ping included,
disconnects the partially-established mixnet client before the error
propagates. The code propagates the self-ping result with the
question-mark operator before reaching the disconnect-on-error match, so a
self-ping failure returns its error with the mixnet client still
connected, while a setup_post_mixnet failure does disconnect first. -/
theorem claim_C4_self_ping_no_disconnect :
    setup_tunnel_services { self_ping := .error 7, post_mixnet := .ok 0 }
      = (.error 7, false)
    ∧ setup_tunnel_services { self_ping := .ok (), post_mixnet := .error 5 }
      = (.error 5, true)
    ∧ setup_tunnel_services { self_ping := .ok (), post_mixnet := .ok 3 }
      = (.ok (0, 3), false) := by
  exact ⟨rfl, rfl, rfl⟩

/-- Claim C5: in every iteration of the control loop, a NewState outcome
produces exactly one TunnelEvent::NewState carrying the new state, a
SameState outcome produces no event, events appear in the exact order of
the transitions, and the loop's control flow is identical whatever the
event receiver does with sends (send results are ignored; the unbounded
channel never blocks), so a slow or absent receiver cannot stall or
terminate the loop. -/
theorem claim_C5_run_exact_events (sendOk : TunnelEvent → Bool)
    (trace : List HandlerDecision) :
    runEvents sendOk trace
      = trace.filterMap (fun d =>
          match d with
          | .newState state => some (TunnelEvent.NewState state)
          | .sameState => none)
    ∧ (TunnelStateMachine.run sendOk trace).map RunEffect.shape
      = (TunnelStateMachine.run (fun _ => true) trace).map RunEffect.shape := by
  induction trace with
  | nil => exact ⟨rfl, rfl⟩
  | cons d rest ih =>
    cases d with
    | newState state =>
      refine ⟨?_, ?_⟩
      · simp only [runEvents, TunnelStateMachine.run, List.filterMap_cons] at ih ⊢
        rw [ih.1]
      · simp only [TunnelStateMachine.run, List.map_cons, RunEffect.shape]
        rw [ih.2]
    | sameState =>
      refine ⟨?_, ?_⟩
      · simp only [runEvents, TunnelStateMachine.run, List.filterMap_cons] at ih ⊢
        exact ih.1
      · simp only [TunnelStateMachine.run]
        exact ih.2

/-- Claim C6: every terminating execution of the control loop consists of
the attempted event sends followed by exactly one invocation of
RouteHandler::stop, which is the last effect; stop occurs nowhere else. -/
theorem claim_C6_route_handler_stop_last (sendOk : TunnelEvent → Bool)
    (trace : List HandlerDecision) :
    TunnelStateMachine.run sendOk trace
      = emittedRun sendOk trace ++ [RunEffect.routeHandlerStop]
    ∧ RunEffect.routeHandlerStop ∉ emittedRun sendOk trace
    ∧ (TunnelStateMachine.run sendOk trace).count RunEffect.routeHandlerStop = 1
    ∧ (TunnelStateMachine.run sendOk trace).getLast? = some RunEffect.routeHandlerStop := by
  have hsplit : TunnelStateMachine.run sendOk trace
      = emittedRun sendOk trace ++ [RunEffect.routeHandlerStop] := by
    induction trace with
    | nil => rfl
    | cons d rest ih =>
      cases d with
      | newState state =>
        simp only [TunnelStateMachine.run, emittedRun, List.filterMap_cons] at ih ⊢
        rw [ih]
        rfl
      | sameState =>
        simp only [TunnelStateMachine.run, emittedRun, List.filterMap_cons] at ih ⊢
        exact ih
  have hmem : RunEffect.routeHandlerStop ∉ emittedRun sendOk trace := by
    intro hmem
    rw [emittedRun, List.mem_filterMap] at hmem
    obtain ⟨d, _, hd⟩ := hmem
    cases d with
    | newState state => simp at hd
    | sameState => simp at hd
  refine ⟨hsplit, hmem, ?_, ?_⟩
  · rw [hsplit, List.count_append]
    rw [List.count_eq_zero_of_not_mem hmem]
    rfl
  · rw [hsplit]
    exact List.getLast?_concat _

/-- Claim C7: connect_mixnet bounds mixnet client startup by the 30-second
MIXNET_CLIENT_STARTUP_TIMEOUT; on every non-success outcome that occurs
after the task manager is created — startup timeout, mixnet client error,
or cancellation — the task manager is signalled and fully shut down before
the error is returned, the cancellation case returning the dedicated
Cancelled variant, distinct from both failure variants; a ConnectedMixnet
is returned exactly when the client started within the timeout. -/
theorem claim_C7_connect_mixnet_teardown (env : ConnectMixnetEnv) :
    MIXNET_CLIENT_STARTUP_TIMEOUT = 30
    ∧ (env.gatewayClient = .ok () →
        ((env.startup = none →
            connect_mixnet env = (.error .Cancelled, true))
         ∧ (env.startup = some none →
            connect_mixnet env = (.error .StartMixnetClientTimeout, true))
         ∧ (∀ e, env.startup = some (some (.error e)) →
            connect_mixnet env = (.error (.MixnetClient e), true))
         ∧ (∀ client, env.startup = some (some (.ok client)) →
            connect_mixnet env = (.ok { mixnet_client := client }, false))))
    ∧ (∀ c, (connect_mixnet env).1 = .ok c →
        env.startup = some (some (.ok c.mixnet_client)))
    ∧ Tunnel.Error.Cancelled ≠ Tunnel.Error.StartMixnetClientTimeout
    ∧ (∀ e, Tunnel.Error.Cancelled ≠ Tunnel.Error.MixnetClient e) := by
  obtain ⟨gc, su⟩ := env
  refine ⟨rfl, ?_, ?_, by simp, by simp⟩
  · intro hgc
    subst hgc
    refine ⟨?_, ?_, ?_, ?_⟩
    · intro hsu; subst hsu; rfl
    · intro hsu; subst hsu; rfl
    · intro e hsu; subst hsu; rfl
    · intro client hsu; subst hsu; rfl
  · intro c hres
    match gc, su with
    | .error e, su => exact Except.noConfusion hres
    | .ok (), none => exact Except.noConfusion hres
    | .ok (), some none => exact Except.noConfusion hres
    | .ok (), some (some (.error e)) => exact Except.noConfusion hres
    | .ok (), some (some (.ok client)) =>
      injection hres with hres
      subst hres
      rfl

/-- Witness for claim C7: cancellation during startup shuts the task
manager down and returns the dedicated Cancelled error. -/
theorem claim_C7_connect_mixnet_teardown_witness :
    connect_mixnet connectCancelledEnv = (.error .Cancelled, true)
    ∧ MIXNET_CLIENT_STARTUP_TIMEOUT = 30 := by
  have h := claim_C7_connect_mixnet_teardown connectCancelledEnv
  exact ⟨(h.2.1 rfl).1 rfl, h.1⟩

/-- Claim C8: a TopUp message is never retransmitted at the transport
layer: one top_up call sends it exactly once on every transport, because
TopUp is not classified wasteful; in particular a transient timeout on the
single attempt is propagated directly instead of triggering a resend. -/
theorem claim_C8_top_up_at_most_once (t : Transport) :
    top_upAttempts t = 1
    ∧ ClientMessage.is_wasteful .topUp = false
    ∧ (t.out 0 = .err .timeoutWaitingForConnectResponse →
        WgGatewayLightClient.top_up t
          = .error (.authClient .timeoutWaitingForConnectResponse)) := by
  refine ⟨rfl, rfl, ?_⟩
  intro h
  simp [WgGatewayLightClient.top_up, WgGatewayLightClient.send,
    ClientMessage.is_wasteful, h]

/-- Witness for claim C8: on the all-timeouts transport, top_up makes
exactly one attempt and surfaces the transport timeout directly. -/
theorem claim_C8_top_up_at_most_once_witness :
    top_upAttempts tAllTimeouts = 1
    ∧ WgGatewayLightClient.top_up tAllTimeouts
      = .error (.authClient .timeoutWaitingForConnectResponse) := by
  have h := claim_C8_top_up_at_most_once tAllTimeouts
  exact ⟨h.1, h.2.2 rfl⟩

/-- Claim C9: Error::error_state_reason is a total function on the tunnel
state machine error enum (the Lean embedding is total by construction, as
is the exhaustive Rust match) assigning each variant exactly one reason:
route-handler-creation and add-routes errors map to Routing,
DNS-handler-creation and set-DNS errors to Dns, firewall-handler-creation
errors to Firewall, the three tunnel-device errors to TunDevice, and the
mixnet client/tunnel connection errors to EstablishMixnetConnection. -/
theorem claim_C9_error_state_reason_assignment (source : Nat) :
    (TunnelStateMachine.Error.CreateRouteHandler source).error_state_reason
      = ErrorStateReason.Routing
    ∧ (TunnelStateMachine.Error.AddRoutes source).error_state_reason
      = ErrorStateReason.Routing
    ∧ (TunnelStateMachine.Error.CreateDnsHandler source).error_state_reason
      = ErrorStateReason.Dns
    ∧ (TunnelStateMachine.Error.SetDns source).error_state_reason
      = ErrorStateReason.Dns
    ∧ (TunnelStateMachine.Error.CreateFirewallHandler source).error_state_reason
      = ErrorStateReason.Firewall
    ∧ (TunnelStateMachine.Error.CreateTunDevice source).error_state_reason
      = ErrorStateReason.TunDevice
    ∧ (TunnelStateMachine.Error.GetTunDeviceName source).error_state_reason
      = ErrorStateReason.TunDevice
    ∧ (TunnelStateMachine.Error.SetTunDeviceIpv6Addr source).error_state_reason
      = ErrorStateReason.TunDevice
    ∧ (TunnelStateMachine.Error.ConnectMixnetClient source).error_state_reason
      = ErrorStateReason.EstablishMixnetConnection
    ∧ (TunnelStateMachine.Error.ConnectMixnetTunnel source).error_state_reason
      = ErrorStateReason.EstablishMixnetConnection := by
  exact ⟨rfl, rfl, rfl, rfl, rfl, rfl, rfl, rfl, rfl, rfl⟩

/-- Claim C10: in the Disconnected state, SetTunnelSettings(settings)
returns SameState (which the control loop turns into no event) and changes
exactly the tunnel_settings field of the shared state, every other field
being unchanged; Disconnect likewise returns SameState with the shared
state entirely unchanged. -/
theorem claim_C10_disconnected_settings_frame
    (connectingEnter : SharedState → SharedState) (shared_state : SharedState)
    (tunnel_settings : Nat) (sendOk : TunnelEvent → Bool)
    (rest : List HandlerDecision) :
    (DisconnectedState.handle_event connectingEnter
        (.command (.SetTunnelSettings tunnel_settings)) shared_state).1
      = DisconnectedNext.sameState
    ∧ (DisconnectedState.handle_event connectingEnter
        (.command (.SetTunnelSettings tunnel_settings)) shared_state).2.tunnel_settings
      = tunnel_settings
    ∧ (DisconnectedState.handle_event connectingEnter
        (.command (.SetTunnelSettings tunnel_settings)) shared_state).2.route_handler
      = shared_state.route_handler
    ∧ (DisconnectedState.handle_event connectingEnter
        (.command (.SetTunnelSettings tunnel_settings)) shared_state).2.firewall_handler
      = shared_state.firewall_handler
    ∧ (DisconnectedState.handle_event connectingEnter
        (.command (.SetTunnelSettings tunnel_settings)) shared_state).2.dns_handler
      = shared_state.dns_handler
    ∧ DisconnectedState.handle_event connectingEnter
        (.command .Disconnect) shared_state
      = (DisconnectedNext.sameState, shared_state)
    ∧ TunnelStateMachine.run sendOk (HandlerDecision.sameState :: rest)
      = TunnelStateMachine.run sendOk rest := by
  exact ⟨rfl, rfl, rfl, rfl, rfl, rfl, rfl⟩
